import Mathlib

/-!
Shallow embedding of `src/validate_ifc.py` (Boscotek IFC validator).

The Python program walks an already-parsed IFC entity graph (provided by
ifcopenshell) and accumulates three ordered lists of string findings
(`errors`, `warnings`, `info`).  We embed the entity graph as a `Model`
(a schema string plus a list of entities), attribute values that may be
null / a raw non-entity value / a typed entity as the tagged type `IfcVal`,
and each check routine as a pure function `Model → Findings → Findings`
that mirrors the Python statement by statement (Python `list.append`
becomes appending a singleton; `for ... :` over a typed collection becomes
`List.foldl`; Python truthiness of attribute values is made explicit).
-/

/-- A value read from an entity attribute, as ifcopenshell hands it to the
script: `null` is Python `None`; `raw v` is a non-entity raw value (e.g. a
float written where an entity reference is required — the script only ever
observes its truthiness, which for a Python number is `v ≠ 0`, and the fact
that it has no `is_a` method); `ent ty` is a typed IFC entity whose
`is_a()` returns `ty`. -/
inductive IfcVal where
  | null : IfcVal
  | raw : Int → IfcVal
  | ent : String → IfcVal
deriving DecidableEq, Repr

/-- One element of `IfcUnitAssignment.Units`.  `unitType` is `some t` when
the Python object has a `UnitType` attribute holding `t` (absent attribute
collapses to `none`, which makes `hasattr(unit, 'UnitType') and
unit.UnitType == 'LENGTHUNIT'` the test `unitType == some "LENGTHUNIT"`).
`unitPrefix` likewise models the optional `Prefix` attribute; both an
absent attribute and a `None` value print as `None` in Python, so both
collapse to `none`. -/
structure IfcUnit where
  unitType : Option String
  unitPrefix : Option String
deriving DecidableEq, Repr

/-- The `IfcProject.UnitsInContext` entity (`IfcUnitAssignment`). -/
structure UnitContext where
  units : List IfcUnit
deriving DecidableEq, Repr

/-- One IFC entity, carrying exactly the attributes the script reads.
`typeName` is what `is_a()` returns.  Attributes not defined for a given
IFC class are simply never read by the script for entities of that class,
so giving every entity every field is harmless. -/
structure Entity where
  typeName : String
  name : Option String
  objectPlacement : IfcVal
  representation : IfcVal
  objectType : Option String
  unitsInContext : Option UnitContext
  repContexts : Option (List String)
  psets : List (String × List String)
  relatingObject : IfcVal
  relatedObjects : Option (List IfcVal)
  relatingStructure : IfcVal
deriving DecidableEq, Repr

/-- The opened IFC model: the declared schema identifier
(`model.wrapped_data.schema`) and the entity graph. -/
structure Model where
  schema : String
  entities : List Entity
deriving DecidableEq, Repr

/-- The IFC classes that are subtypes of `IfcProduct` among the classes
this program ever queries (spatial-structure elements and furnishing
elements are products; `IfcProject` is not). -/
def productTypes : List String :=
  ["IfcProduct", "IfcSite", "IfcBuilding", "IfcBuildingStorey", "IfcFurnishingElement"]

/-- `isA concrete query`: does an entity whose concrete class is `concrete`
answer `True` to `is_a(query)`?  Exact class match, plus the `IfcProduct`
supertype relation for the classes in `productTypes`. -/
def isA (concrete query : String) : Bool :=
  concrete == query || (query == "IfcProduct" && productTypes.contains concrete)

/-- `model.by_type(ty)`: all entities of class `ty` (subtypes included),
in graph order. -/
def Model.byType (m : Model) (ty : String) : List Entity :=
  m.entities.filter (fun e => isA e.typeName ty)

/-- Python truthiness of an attribute value: `None` is falsy, a raw number
is falsy iff it is zero, an entity reference is truthy. -/
def pyTruthy : IfcVal → Bool
  | IfcVal.null => false
  | IfcVal.raw v => v != 0
  | IfcVal.ent _ => true

/-- `hasattr(v, 'is_a')`: only actual entities expose `is_a`. -/
def hasIsA : IfcVal → Bool
  | IfcVal.ent _ => true
  | _ => false

/-- `v.is_a()` — the concrete type name (only ever called on entities). -/
def valType : IfcVal → String
  | IfcVal.ent ty => ty
  | _ => ""

/-- `v.is_a(q)` — type test against `q` (only ever called on entities). -/
def valIsA (v : IfcVal) (q : String) : Bool :=
  match v with
  | IfcVal.ent ty => isA ty q
  | _ => false

/-- How `f"{product.Name}"` renders the optional `Name` attribute:
a `None` name prints as the text `None`. -/
def nameStr (p : Entity) : String :=
  match p.name with
  | some s => s
  | none => "None"

/-- Python truthiness of an optional string attribute (`None` and the
empty string are falsy). -/
def optStrFalsy : Option String → Bool
  | none => true
  | some s => s == ""

/-- Python truthiness of an optional list-valued attribute (`None` and an
empty collection are falsy). -/
def optListFalsy {α : Type} : Option (List α) → Bool
  | none => true
  | some l => l.isEmpty

/-- The three severity buckets of the validator (`self.errors`,
`self.warnings`, `self.info`), each an ordered list of message strings. -/
structure Findings where
  errors : List String
  warnings : List String
  info : List String
deriving DecidableEq, Repr

/-- The freshly constructed state (`__init__` starts all three empty). -/
def emptyFindings : Findings := ⟨[], [], []⟩

/-- Pointwise concatenation of two finding states. -/
def Findings.app (f g : Findings) : Findings :=
  ⟨f.errors ++ g.errors, f.warnings ++ g.warnings, f.info ++ g.info⟩

/-- `self.errors.append(s)` -/
def Findings.addError (f : Findings) (s : String) : Findings :=
  ⟨f.errors ++ [s], f.warnings, f.info⟩

/-- `self.warnings.append(s)` -/
def Findings.addWarning (f : Findings) (s : String) : Findings :=
  ⟨f.errors, f.warnings ++ [s], f.info⟩

/-- `self.info.append(s)` -/
def Findings.addInfo (f : Findings) (s : String) : Findings :=
  ⟨f.errors, f.warnings, f.info ++ [s]⟩

/-- `validate_schema` (src/validate_ifc.py lines 51-57). -/
def validate_schema (m : Model) (f : Findings) : Findings :=
  if m.schema ≠ "IFC4" then
    f.addError ("Schema must be IFC4, found: " ++ m.schema)
  else
    f.addInfo ("✓ Schema: " ++ m.schema)

/-- `validate_units` (lines 59-86).  The Python `for`/`break` scan for the
first unit whose `UnitType` is `LENGTHUNIT` is `List.find?`. -/
def validate_units (m : Model) (f : Findings) : Findings :=
  match m.byType "IfcProject" with
  | [] => f.addError "No IfcProject found"
  | project :: _ =>
    match project.unitsInContext with
    | none => f.addError "IfcProject.UnitsInContext is null (must be entity reference)"
    | some units =>
      match units.units.find? (fun u => u.unitType == some "LENGTHUNIT") with
      | none => f.addError "No LENGTHUNIT found in UnitsInContext"
      | some lengthUnit =>
        if lengthUnit.unitPrefix == some "MILLI" then
          f.addInfo "✓ Units: MILLIMETRE (correct)"
        else
          f.addWarning ("Units: " ++ lengthUnit.unitPrefix.getD "None" ++
            "METRE (spec requires MILLIMETRE)")

/-- Lines 98-122 of `validate_spatial_hierarchy`, once the first project
has been selected: the representation-context check followed by the three
independent spatial-type checks. -/
def spatialBody (m : Model) (project : Entity) (f : Findings) : Findings :=
  let f1 :=
    if optListFalsy project.repContexts then
      f.addError "IfcProject.RepresentationContexts is null (must be entity list)"
    else
      f.addInfo ("✓ Project has " ++ toString (project.repContexts.getD []).length ++
        " representation context(s)")
  let sites := m.byType "IfcSite"
  let buildings := m.byType "IfcBuilding"
  let storeys := m.byType "IfcBuildingStorey"
  let f2 :=
    if sites.isEmpty then f1.addError "No IfcSite found (required)"
    else f1.addInfo ("✓ Found " ++ toString sites.length ++ " IfcSite(s)")
  let f3 :=
    if buildings.isEmpty then f2.addError "No IfcBuilding found (required)"
    else f2.addInfo ("✓ Found " ++ toString buildings.length ++ " IfcBuilding(s)")
  if storeys.isEmpty then
    f3.addError "No IfcBuildingStorey found (CRITICAL - required for valid hierarchy)"
  else f3.addInfo ("✓ Found " ++ toString storeys.length ++ " IfcBuildingStorey(s)")

/-- `validate_spatial_hierarchy` (lines 88-122): error and immediate
return when no project exists, else `spatialBody` on the first project. -/
def validate_spatial_hierarchy (m : Model) (f : Findings) : Findings :=
  match m.byType "IfcProject" with
  | [] => f.addError "No IfcProject found"
  | project :: _ => spatialBody m project f

/-- Loop body of `validate_no_float_placements` (lines 128-140): the three
guarded appends for one product (the Python `continue`s make the branches
mutually exclusive). -/
def checkPlacement (product : Entity) (f : Findings) : Findings :=
  if !pyTruthy product.objectPlacement then
    f.addError (nameStr product ++ ": ObjectPlacement is null (must be IfcLocalPlacement)")
  else if !hasIsA product.objectPlacement then
    f.addError (nameStr product ++ ": ObjectPlacement is not an IFC entity (possibly float)")
  else if !valIsA product.objectPlacement "IfcLocalPlacement" then
    f.addWarning (nameStr product ++ ": ObjectPlacement is " ++
      valType product.objectPlacement ++ " (expected IfcLocalPlacement)")
  else f

/-- `validate_no_float_placements` (lines 124-142). -/
def validate_no_float_placements (m : Model) (f : Findings) : Findings :=
  let products := m.byType "IfcProduct"
  let f1 := products.foldl (fun acc product => checkPlacement product acc) f
  f1.addInfo ("✓ Checked " ++ toString products.length ++ " products for valid placements")

/-- Loop body of `validate_products` (lines 148-160). -/
def checkProduct (product : Entity) (f : Findings) : Findings :=
  if ["IfcProject", "IfcSite", "IfcBuilding", "IfcBuildingStorey"].contains product.typeName then
    f
  else if !pyTruthy product.representation then
    f.addWarning (nameStr product ++ ": No Representation (geometry missing)")
  else if optStrFalsy product.objectType then
    f.addWarning (nameStr product ++ ": ObjectType not set (should be Boscotek code)")
  else f

/-- `validate_products` (lines 144-163). -/
def validate_products (m : Model) (f : Findings) : Findings :=
  let f1 := (m.byType "IfcProduct").foldl (fun acc product => checkProduct product acc) f
  f1.addInfo ("✓ Found " ++ toString (m.byType "IfcFurnishingElement").length ++
    " IfcFurnishingElement(s)")

/-- The fixed required-property list of `validate_property_sets`
(line 176), in source order. -/
def requiredProps : List String := ["BoscotekCode", "Family", "Manufacturer"]

/-- Loop body of `validate_property_sets` (lines 169-184).  `psets` models
the dictionary `ifcopenshell.util.element.get_psets(product)` as an
association list from set name to the list of property names present. -/
def checkPset (product : Entity) (f : Findings) : Findings :=
  match product.psets.lookup "Pset_BoscotekCabinet" with
  | some pset =>
    let missingProps := requiredProps.filter (fun prop => !pset.contains prop)
    if !missingProps.isEmpty then
      f.addWarning (nameStr product ++ ": Missing properties: " ++
        String.intercalate ", " missingProps)
    else
      f.addInfo ("✓ " ++ nameStr product ++ ": Has complete Pset_BoscotekCabinet")
  | none => f.addWarning (nameStr product ++ ": Missing Pset_BoscotekCabinet property set")

/-- `validate_property_sets` (lines 165-184). -/
def validate_property_sets (m : Model) (f : Findings) : Findings :=
  (m.byType "IfcFurnishingElement").foldl (fun acc product => checkPset product acc) f

/-- Inner loop body of the aggregation scan (lines 197-199): probe one
member of `RelatedObjects`. -/
def checkRelObj (obj : IfcVal) (f : Findings) : Findings :=
  if !hasIsA obj then
    f.addError "IfcRelAggregates.RelatedObjects contains non-entity (possibly float)"
  else f

/-- Body of the `IfcRelAggregates` loop (lines 190-199). -/
def checkAggregate (rel : Entity) (f : Findings) : Findings :=
  let f1 :=
    if !hasIsA rel.relatingObject then
      f.addError "IfcRelAggregates.RelatingObject is not an entity (possibly float)"
    else f
  if optListFalsy rel.relatedObjects then
    f1.addError "IfcRelAggregates.RelatedObjects is empty"
  else
    (rel.relatedObjects.getD []).foldl (fun acc obj => checkRelObj obj acc) f1

/-- Body of the `IfcRelContainedInSpatialStructure` loop (lines 203-212). -/
def checkContainment (rel : Entity) (f : Findings) : Findings :=
  let f1 :=
    if !hasIsA rel.relatingStructure then
      f.addError "IfcRelContainedInSpatialStructure.RelatingStructure is not an entity"
    else f
  if hasIsA rel.relatingStructure then
    if valIsA rel.relatingStructure "IfcBuilding" then
      f1.addWarning "Products contained in IfcBuilding (should be IfcBuildingStorey)"
    else if valIsA rel.relatingStructure "IfcBuildingStorey" then
      f1.addInfo "✓ Products correctly contained in IfcBuildingStorey"
    else f1
  else f1

/-- `validate_relationships` (lines 186-214). -/
def validate_relationships (m : Model) (f : Findings) : Findings :=
  let aggregates := m.byType "IfcRelAggregates"
  let f1 := aggregates.foldl (fun acc rel => checkAggregate rel acc) f
  let containments := m.byType "IfcRelContainedInSpatialStructure"
  let f2 := containments.foldl (fun acc rel => checkContainment rel acc) f1
  f2.addInfo ("✓ Validated " ++ toString aggregates.length ++ " aggregation and " ++
    toString containments.length ++ " containment relationships")

/-- `validate_all` (lines 33-49): the seven checks in source order starting
from the empty finding lists of `__init__`, returning the final findings
together with the returned boolean `len(self.errors) == 0`. -/
def validate_all (m : Model) : Findings × Bool :=
  let f := validate_relationships m (validate_property_sets m (validate_products m
    (validate_no_float_placements m (validate_spatial_hierarchy m (validate_units m
      (validate_schema m emptyFindings))))))
  (f, f.errors.isEmpty)

/-- Observable outcome of one `main` invocation: the process exit status,
the findings report printed by `print_results` (absent when validation
never ran), and the `ERROR:` line printed on failure (absent on a normal
run). -/
structure RunResult where
  exitCode : Nat
  report : Option Findings
  errorLine : Option String
deriving DecidableEq, Repr

/-- `IFCValidator.__init__` (lines 28-31) without the file system: the
external `ifcopenshell.open` outcome comes in as an `Except`; a provider
failure is re-raised wrapped as `Failed to open IFC file: <e>`. -/
def IFCValidator_init (openResult : Except String Model) : Except String Model :=
  match openResult with
  | Except.ok m => Except.ok m
  | Except.error e => Except.error ("Failed to open IFC file: " ++ e)

/-- `main` (lines 253-274) after argument parsing: `fileExists` is the
`os.path.exists` answer and `openResult` the `ifcopenshell.open` outcome
for that path.  A missing file or a raised open error prints an `ERROR:`
line and exits 1 with no report; otherwise the run exits
`0 if success else 1` with the full report. -/
def main_run (path : String) (fileExists : Bool) (openResult : Except String Model) :
    RunResult :=
  if !fileExists then
    ⟨1, none, some ("ERROR: File not found: " ++ path)⟩
  else
    match IFCValidator_init openResult with
    | Except.error e => ⟨1, none, some ("ERROR: " ++ e)⟩
    | Except.ok m =>
      let r := validate_all m
      ⟨if r.2 then 0 else 1, some r.1, none⟩

/-- Substring test on character lists: `charsHas needle hay` is true iff
`needle` occurs contiguously in `hay`. -/
def charsHas (needle : List Char) : List Char → Bool
  | [] => needle.isEmpty
  | c :: cs => needle.isPrefixOf (c :: cs) || charsHas needle cs

/-- `needle` occurs as a substring of `hay`. -/
def strHas (hay needle : String) : Bool := charsHas needle.data hay.data

/-! Concrete example models used by witnesses and counterexamples. -/

/-- A project entity whose unit context declares a `MILLI`-prefixed length
unit. -/
def pC3 : Entity :=
  ⟨"IfcProject", some "Proj", IfcVal.null, IfcVal.null, none,
    some ⟨[⟨some "LENGTHUNIT", some "MILLI"⟩]⟩, some ["ctx"], [],
    IfcVal.null, none, IfcVal.null⟩

/-- The unit context of `pC3`. -/
def ucC3 : UnitContext := ⟨[⟨some "LENGTHUNIT", some "MILLI"⟩]⟩

/-- A model whose only entity is the project `pC3`. -/
def mC3 : Model := ⟨"IFC4", [pC3]⟩

/-- A furnishing product whose `ObjectPlacement` is the raw number `0.0`
(a Python-falsy non-entity value). -/
def pC4zero : Entity :=
  ⟨"IfcFurnishingElement", some "P", IfcVal.raw 0, IfcVal.null, none, none, none, [],
    IfcVal.null, none, IfcVal.null⟩

/-- A furnishing product whose `ObjectPlacement` is the raw number `1.0`
(a Python-truthy non-entity value). -/
def pC4one : Entity :=
  ⟨"IfcFurnishingElement", some "Q", IfcVal.raw 1, IfcVal.null, none, none, none, [],
    IfcVal.null, none, IfcVal.null⟩

/-- A model holding the two raw-placement products. -/
def mC4 : Model := ⟨"IFC4", [pC4zero, pC4one]⟩

/-- A model with no entities at all: no `IfcProject`, hence also no site,
building or storey. -/
def mC6cex : Model := ⟨"IFC4", []⟩

/-- A bare project entity (with a representation context). -/
def pC6proj : Entity :=
  ⟨"IfcProject", some "Proj", IfcVal.null, IfcVal.null, none, none, some ["ctx"], [],
    IfcVal.null, none, IfcVal.null⟩

/-- A model containing one project but no site, building or storey. -/
def mC6w : Model := ⟨"IFC4", [pC6proj]⟩

/-- A model with a wrong schema identifier and no entities. -/
def mC8 : Model := ⟨"IFC2X3", []⟩

/-- A model with no project but one furnishing product. -/
def mC10 : Model := ⟨"IFC4", [pC4one]⟩


/-! Algebra of finding accumulation: every check only appends, so a check
applied to an arbitrary prior state equals that state with the check's own
findings (its run from the empty state) appended pointwise. -/

theorem Findings.eta (f : Findings) : (⟨f.errors, f.warnings, f.info⟩ : Findings) = f := rfl

theorem Findings.app_assoc (f g h : Findings) : (f.app g).app h = f.app (g.app h) := by
  simp [Findings.app]

theorem Findings.app_empty (f : Findings) : f.app emptyFindings = f := by
  simp [Findings.app, emptyFindings]

theorem Findings.empty_app (f : Findings) : emptyFindings.app f = f := by
  simp [Findings.app, emptyFindings]

/-- A state transformer that only appends findings: its action on any
state is its action on the empty state, appended. -/
def AppendsOnly (g : Findings → Findings) : Prop :=
  ∀ f, g f = f.app (g emptyFindings)

theorem appends_id : AppendsOnly (fun f => f) :=
  fun f => (Findings.app_empty f).symm

theorem appends_addError (s : String) : AppendsOnly (fun f => f.addError s) := by
  intro f
  simp [Findings.addError, Findings.app, emptyFindings]

theorem appends_addWarning (s : String) : AppendsOnly (fun f => f.addWarning s) := by
  intro f
  simp [Findings.addWarning, Findings.app, emptyFindings]

theorem appends_addInfo (s : String) : AppendsOnly (fun f => f.addInfo s) := by
  intro f
  simp [Findings.addInfo, Findings.app, emptyFindings]

theorem appends_ite (c : Prop) [Decidable c] (g1 g2 : Findings → Findings)
    (h1 : AppendsOnly g1) (h2 : AppendsOnly g2) :
    AppendsOnly (fun f => if c then g1 f else g2 f) := by
  intro f
  by_cases hc : c
  · simp only [if_pos hc]
    exact h1 f
  · simp only [if_neg hc]
    exact h2 f

theorem appends_comp (g1 g2 : Findings → Findings)
    (h1 : AppendsOnly g1) (h2 : AppendsOnly g2) :
    AppendsOnly (fun f => g2 (g1 f)) := by
  intro f
  show g2 (g1 f) = f.app (g2 (g1 emptyFindings))
  rw [h2 (g1 f), h1 f, Findings.app_assoc, ← h2 (g1 emptyFindings)]

theorem foldl_findings {α : Type} (g : α → Findings → Findings)
    (hg : ∀ a f, g a f = f.app (g a emptyFindings)) (l : List α) (f : Findings) :
    l.foldl (fun acc a => g a acc) f =
      ⟨f.errors ++ l.flatMap (fun a => (g a emptyFindings).errors),
       f.warnings ++ l.flatMap (fun a => (g a emptyFindings).warnings),
       f.info ++ l.flatMap (fun a => (g a emptyFindings).info)⟩ := by
  induction l generalizing f with
  | nil => simp [Findings.eta]
  | cons a t ih =>
    rw [List.foldl_cons, ih (g a f), hg a f]
    simp [Findings.app, List.append_assoc]

theorem appends_foldl {α : Type} (g : α → Findings → Findings)
    (hg : ∀ a, AppendsOnly (g a)) (l : List α) :
    AppendsOnly (fun f => l.foldl (fun acc a => g a acc) f) := by
  intro f
  show l.foldl (fun acc a => g a acc) f = f.app (l.foldl (fun acc a => g a acc) emptyFindings)
  rw [foldl_findings g (fun a f => hg a f) l f,
    foldl_findings g (fun a f => hg a f) l emptyFindings]
  simp [Findings.app, emptyFindings, List.append_assoc]

theorem checkPlacement_app (p : Entity) (f : Findings) :
    checkPlacement p f = f.app (checkPlacement p emptyFindings) := by
  unfold checkPlacement
  exact (appends_ite _ _ _ (appends_addError _)
    (appends_ite _ _ _ (appends_addError _)
      (appends_ite _ _ _ (appends_addWarning _) appends_id))) f

theorem checkProduct_app (p : Entity) (f : Findings) :
    checkProduct p f = f.app (checkProduct p emptyFindings) := by
  unfold checkProduct
  exact (appends_ite _ _ _ appends_id
    (appends_ite _ _ _ (appends_addWarning _)
      (appends_ite _ _ _ (appends_addWarning _) appends_id))) f

theorem checkPset_app (p : Entity) (f : Findings) :
    checkPset p f = f.app (checkPset p emptyFindings) := by
  rcases hL : p.psets.lookup "Pset_BoscotekCabinet" with _ | pset
  · simp [checkPset, hL, Findings.addWarning, Findings.app, emptyFindings]
  · simp only [checkPset, hL]
    exact (appends_ite _ _ _ (appends_addWarning _) (appends_addInfo _)) f

theorem checkRelObj_app (obj : IfcVal) (f : Findings) :
    checkRelObj obj f = f.app (checkRelObj obj emptyFindings) := by
  unfold checkRelObj
  exact (appends_ite _ _ _ (appends_addError _) appends_id) f

theorem checkAggregate_app (rel : Entity) (f : Findings) :
    checkAggregate rel f = f.app (checkAggregate rel emptyFindings) := by
  unfold checkAggregate
  exact (appends_comp _ _
    (appends_ite _ _ _ (appends_addError _) appends_id)
    (appends_ite _ _ _ (appends_addError _)
      (appends_foldl checkRelObj checkRelObj_app _))) f

theorem checkContainment_app (rel : Entity) (f : Findings) :
    checkContainment rel f = f.app (checkContainment rel emptyFindings) := by
  unfold checkContainment
  exact (appends_comp _ _
    (appends_ite _ _ _ (appends_addError _) appends_id)
    (appends_ite _ _ _
      (appends_ite _ _ _ (appends_addWarning _)
        (appends_ite _ _ _ (appends_addInfo _) appends_id))
      appends_id)) f

theorem validate_schema_app (m : Model) (f : Findings) :
    validate_schema m f = f.app (validate_schema m emptyFindings) := by
  unfold validate_schema
  exact (appends_ite _ _ _ (appends_addError _) (appends_addInfo _)) f

theorem validate_units_app (m : Model) (f : Findings) :
    validate_units m f = f.app (validate_units m emptyFindings) := by
  rcases hP : m.byType "IfcProject" with _ | ⟨project, rest⟩
  · simp [validate_units, hP, Findings.addError, Findings.app, emptyFindings]
  · rcases hU : project.unitsInContext with _ | units
    · simp [validate_units, hP, hU, Findings.addError, Findings.app, emptyFindings]
    · rcases hF : units.units.find? (fun u => u.unitType == some "LENGTHUNIT") with _ | lengthUnit
      · simp [validate_units, hP, hU, hF, Findings.addError, Findings.app, emptyFindings]
      · simp only [validate_units, hP, hU, hF]
        exact (appends_ite _ _ _ (appends_addInfo _) (appends_addWarning _)) f

theorem spatialBody_app (m : Model) (project : Entity) (f : Findings) :
    spatialBody m project f = f.app (spatialBody m project emptyFindings) := by
  unfold spatialBody
  exact (appends_comp _ _
    (appends_comp _ _
      (appends_comp _ _
        (appends_ite _ _ _ (appends_addError _) (appends_addInfo _))
        (appends_ite _ _ _ (appends_addError _) (appends_addInfo _)))
      (appends_ite _ _ _ (appends_addError _) (appends_addInfo _)))
    (appends_ite _ _ _ (appends_addError _) (appends_addInfo _))) f

theorem validate_spatial_hierarchy_app (m : Model) (f : Findings) :
    validate_spatial_hierarchy m f = f.app (validate_spatial_hierarchy m emptyFindings) := by
  rcases hP : m.byType "IfcProject" with _ | ⟨project, rest⟩
  · simp [validate_spatial_hierarchy, hP, Findings.addError, Findings.app, emptyFindings]
  · simp only [validate_spatial_hierarchy, hP]
    exact spatialBody_app m project f

theorem validate_no_float_placements_eq (m : Model) (f : Findings) :
    validate_no_float_placements m f =
      ⟨f.errors ++ (m.byType "IfcProduct").flatMap
          (fun p => (checkPlacement p emptyFindings).errors),
       f.warnings ++ (m.byType "IfcProduct").flatMap
          (fun p => (checkPlacement p emptyFindings).warnings),
       f.info ++ (m.byType "IfcProduct").flatMap
          (fun p => (checkPlacement p emptyFindings).info) ++
        ["✓ Checked " ++ toString (m.byType "IfcProduct").length ++
          " products for valid placements"]⟩ := by
  show ((m.byType "IfcProduct").foldl (fun acc product => checkPlacement product acc) f).addInfo
      ("✓ Checked " ++ toString (m.byType "IfcProduct").length ++
        " products for valid placements") = _
  rw [foldl_findings checkPlacement checkPlacement_app]
  simp [Findings.addInfo, List.append_assoc]

theorem validate_no_float_placements_app (m : Model) (f : Findings) :
    validate_no_float_placements m f = f.app (validate_no_float_placements m emptyFindings) := by
  rw [validate_no_float_placements_eq m f, validate_no_float_placements_eq m emptyFindings]
  simp [Findings.app, emptyFindings, List.append_assoc]

theorem validate_products_eq (m : Model) (f : Findings) :
    validate_products m f =
      ⟨f.errors ++ (m.byType "IfcProduct").flatMap
          (fun p => (checkProduct p emptyFindings).errors),
       f.warnings ++ (m.byType "IfcProduct").flatMap
          (fun p => (checkProduct p emptyFindings).warnings),
       f.info ++ (m.byType "IfcProduct").flatMap
          (fun p => (checkProduct p emptyFindings).info) ++
        ["✓ Found " ++ toString (m.byType "IfcFurnishingElement").length ++
          " IfcFurnishingElement(s)"]⟩ := by
  show ((m.byType "IfcProduct").foldl (fun acc product => checkProduct product acc) f).addInfo
      ("✓ Found " ++ toString (m.byType "IfcFurnishingElement").length ++
        " IfcFurnishingElement(s)") = _
  rw [foldl_findings checkProduct checkProduct_app]
  simp [Findings.addInfo, List.append_assoc]

theorem validate_products_app (m : Model) (f : Findings) :
    validate_products m f = f.app (validate_products m emptyFindings) := by
  rw [validate_products_eq m f, validate_products_eq m emptyFindings]
  simp [Findings.app, emptyFindings, List.append_assoc]

theorem validate_property_sets_eq (m : Model) (f : Findings) :
    validate_property_sets m f =
      ⟨f.errors ++ (m.byType "IfcFurnishingElement").flatMap
          (fun p => (checkPset p emptyFindings).errors),
       f.warnings ++ (m.byType "IfcFurnishingElement").flatMap
          (fun p => (checkPset p emptyFindings).warnings),
       f.info ++ (m.byType "IfcFurnishingElement").flatMap
          (fun p => (checkPset p emptyFindings).info)⟩ := by
  show (m.byType "IfcFurnishingElement").foldl (fun acc product => checkPset product acc) f = _
  exact foldl_findings checkPset checkPset_app _ _

theorem validate_property_sets_app (m : Model) (f : Findings) :
    validate_property_sets m f = f.app (validate_property_sets m emptyFindings) := by
  rw [validate_property_sets_eq m f, validate_property_sets_eq m emptyFindings]
  simp [Findings.app, emptyFindings, List.append_assoc]

theorem validate_relationships_eq (m : Model) (f : Findings) :
    validate_relationships m f =
      ⟨f.errors ++ (m.byType "IfcRelAggregates").flatMap
          (fun rel => (checkAggregate rel emptyFindings).errors) ++
        (m.byType "IfcRelContainedInSpatialStructure").flatMap
          (fun rel => (checkContainment rel emptyFindings).errors),
       f.warnings ++ (m.byType "IfcRelAggregates").flatMap
          (fun rel => (checkAggregate rel emptyFindings).warnings) ++
        (m.byType "IfcRelContainedInSpatialStructure").flatMap
          (fun rel => (checkContainment rel emptyFindings).warnings),
       f.info ++ (m.byType "IfcRelAggregates").flatMap
          (fun rel => (checkAggregate rel emptyFindings).info) ++
        (m.byType "IfcRelContainedInSpatialStructure").flatMap
          (fun rel => (checkContainment rel emptyFindings).info) ++
        ["✓ Validated " ++ toString (m.byType "IfcRelAggregates").length ++
          " aggregation and " ++
          toString (m.byType "IfcRelContainedInSpatialStructure").length ++
          " containment relationships"]⟩ := by
  show ((m.byType "IfcRelContainedInSpatialStructure").foldl
      (fun acc rel => checkContainment rel acc)
      ((m.byType "IfcRelAggregates").foldl (fun acc rel => checkAggregate rel acc) f)).addInfo
      ("✓ Validated " ++ toString (m.byType "IfcRelAggregates").length ++
        " aggregation and " ++
        toString (m.byType "IfcRelContainedInSpatialStructure").length ++
        " containment relationships") = _
  rw [foldl_findings checkAggregate checkAggregate_app,
    foldl_findings checkContainment checkContainment_app]
  simp [Findings.addInfo, List.append_assoc]

theorem validate_relationships_app (m : Model) (f : Findings) :
    validate_relationships m f = f.app (validate_relationships m emptyFindings) := by
  rw [validate_relationships_eq m f, validate_relationships_eq m emptyFindings]
  simp [Findings.app, emptyFindings, List.append_assoc]

theorem validate_all_fst (m : Model) :
    (validate_all m).1 =
      (((((((validate_schema m emptyFindings).app (validate_units m emptyFindings)).app
        (validate_spatial_hierarchy m emptyFindings)).app
        (validate_no_float_placements m emptyFindings)).app
        (validate_products m emptyFindings)).app
        (validate_property_sets m emptyFindings)).app
        (validate_relationships m emptyFindings)) := by
  show validate_relationships m (validate_property_sets m (validate_products m
    (validate_no_float_placements m (validate_spatial_hierarchy m (validate_units m
      (validate_schema m emptyFindings)))))) = _
  rw [validate_relationships_app, validate_property_sets_app, validate_products_app,
    validate_no_float_placements_app, validate_spatial_hierarchy_app, validate_units_app]

theorem validate_all_errors (m : Model) :
    (validate_all m).1.errors =
      (validate_schema m emptyFindings).errors ++ (validate_units m emptyFindings).errors ++
      (validate_spatial_hierarchy m emptyFindings).errors ++
      (validate_no_float_placements m emptyFindings).errors ++
      (validate_products m emptyFindings).errors ++
      (validate_property_sets m emptyFindings).errors ++
      (validate_relationships m emptyFindings).errors := by
  rw [validate_all_fst]
  simp [Findings.app, List.append_assoc]

theorem validate_all_snd (m : Model) :
    (validate_all m).2 = (validate_all m).1.errors.isEmpty := rfl

/-! Helpers for locating specific error messages inside a full run. -/

theorem ne_append_of_length_lt (a s t : String)
    (h : t.length < a.length ∨ t.length < s.length) : t ≠ a ++ s := by
  intro hEq
  have h1 := congrArg String.length hEq
  rw [String.length_append] at h1
  rcases h with h | h <;> omega

theorem flatMap_nil_fun {α β : Type} (l : List α) :
    l.flatMap (fun _ => ([] : List β)) = [] := by
  induction l with
  | nil => rfl
  | cons a t ih => simp [ih]

theorem count_flat_zero {α : Type} (t : String) (g : α → List String) (l : List α)
    (hg : ∀ a, t ∉ g a) : (l.flatMap g).count t = 0 := by
  rw [List.count_eq_zero]
  intro hMem
  obtain ⟨a, ha, hx⟩ := List.mem_flatMap.mp hMem
  exact hg a hx

theorem validate_units_no_proj_eq (m : Model) (f : Findings)
    (h : m.byType "IfcProject" = []) :
    validate_units m f = f.addError "No IfcProject found" := by
  simp [validate_units, h]

theorem validate_spatial_no_proj_eq (m : Model) (f : Findings)
    (h : m.byType "IfcProject" = []) :
    validate_spatial_hierarchy m f = f.addError "No IfcProject found" := by
  simp [validate_spatial_hierarchy, h]

theorem validate_schema_no_proj (m : Model) :
    "No IfcProject found" ∉ (validate_schema m emptyFindings).errors := by
  unfold validate_schema
  split_ifs with h
  · simp only [Findings.addError, emptyFindings, List.nil_append, List.mem_singleton]
    exact ne_append_of_length_lt _ _ _ (Or.inl (by decide))
  · simp [Findings.addInfo, emptyFindings]

theorem checkPlacement_no_proj (p : Entity) :
    "No IfcProject found" ∉ (checkPlacement p emptyFindings).errors := by
  unfold checkPlacement
  split_ifs with h1 h2 h3
  · simp only [Findings.addError, emptyFindings, List.nil_append, List.mem_singleton]
    exact ne_append_of_length_lt _ _ _ (Or.inr (by decide))
  · simp only [Findings.addError, emptyFindings, List.nil_append, List.mem_singleton]
    exact ne_append_of_length_lt _ _ _ (Or.inr (by decide))
  · simp [Findings.addWarning, emptyFindings]
  · simp [emptyFindings]

theorem placements_no_proj (m : Model) :
    "No IfcProject found" ∉ (validate_no_float_placements m emptyFindings).errors := by
  rw [validate_no_float_placements_eq]
  intro hMem
  have hMem2 : "No IfcProject found" ∈ (m.byType "IfcProduct").flatMap
      (fun p => (checkPlacement p emptyFindings).errors) := by
    simpa [emptyFindings] using hMem
  obtain ⟨p, hp, hx⟩ := List.mem_flatMap.mp hMem2
  exact checkPlacement_no_proj p hx

theorem checkProduct_errors_nil (p : Entity) : (checkProduct p emptyFindings).errors = [] := by
  unfold checkProduct
  split_ifs <;> simp [Findings.addWarning, emptyFindings]

theorem validate_products_errors (m : Model) (f : Findings) :
    (validate_products m f).errors = f.errors := by
  rw [validate_products_eq]
  simp [checkProduct_errors_nil, flatMap_nil_fun]

theorem checkPset_errors_nil (p : Entity) : (checkPset p emptyFindings).errors = [] := by
  rcases hL : p.psets.lookup "Pset_BoscotekCabinet" with _ | pset
  · simp [checkPset, hL, Findings.addWarning, emptyFindings]
  · simp only [checkPset, hL]
    split_ifs <;> simp [Findings.addWarning, Findings.addInfo, emptyFindings]

theorem validate_property_sets_errors (m : Model) (f : Findings) :
    (validate_property_sets m f).errors = f.errors := by
  rw [validate_property_sets_eq]
  simp [checkPset_errors_nil, flatMap_nil_fun]

theorem relObj_errors (obj : IfcVal) :
    (checkRelObj obj emptyFindings).errors =
      if !hasIsA obj then
        ["IfcRelAggregates.RelatedObjects contains non-entity (possibly float)"]
      else [] := by
  unfold checkRelObj
  split_ifs <;> simp [Findings.addError, emptyFindings]

theorem checkAggregate_errors (rel : Entity) (f : Findings) :
    (checkAggregate rel f).errors = f.errors ++
      ((if !hasIsA rel.relatingObject then
          ["IfcRelAggregates.RelatingObject is not an entity (possibly float)"] else []) ++
       (if optListFalsy rel.relatedObjects then
          ["IfcRelAggregates.RelatedObjects is empty"]
        else (rel.relatedObjects.getD []).flatMap
          (fun obj => (checkRelObj obj emptyFindings).errors))) := by
  show ((if optListFalsy rel.relatedObjects then
      (if !hasIsA rel.relatingObject then
        f.addError "IfcRelAggregates.RelatingObject is not an entity (possibly float)"
      else f).addError "IfcRelAggregates.RelatedObjects is empty"
    else
      (rel.relatedObjects.getD []).foldl (fun acc obj => checkRelObj obj acc)
        (if !hasIsA rel.relatingObject then
          f.addError "IfcRelAggregates.RelatingObject is not an entity (possibly float)"
        else f))).errors = _
  rw [foldl_findings checkRelObj checkRelObj_app]
  split_ifs <;> simp [Findings.addError, List.append_assoc]

theorem checkContainment_errors (rel : Entity) (f : Findings) :
    (checkContainment rel f).errors = f.errors ++
      (if !hasIsA rel.relatingStructure then
        ["IfcRelContainedInSpatialStructure.RelatingStructure is not an entity"] else []) := by
  show ((if hasIsA rel.relatingStructure then
      (if valIsA rel.relatingStructure "IfcBuilding" then
        (if !hasIsA rel.relatingStructure then
          f.addError "IfcRelContainedInSpatialStructure.RelatingStructure is not an entity"
        else f).addWarning "Products contained in IfcBuilding (should be IfcBuildingStorey)"
      else if valIsA rel.relatingStructure "IfcBuildingStorey" then
        (if !hasIsA rel.relatingStructure then
          f.addError "IfcRelContainedInSpatialStructure.RelatingStructure is not an entity"
        else f).addInfo "✓ Products correctly contained in IfcBuildingStorey"
      else
        (if !hasIsA rel.relatingStructure then
          f.addError "IfcRelContainedInSpatialStructure.RelatingStructure is not an entity"
        else f))
    else
      (if !hasIsA rel.relatingStructure then
        f.addError "IfcRelContainedInSpatialStructure.RelatingStructure is not an entity"
      else f))).errors = _
  split_ifs <;> simp [Findings.addError, Findings.addWarning, Findings.addInfo]

theorem checkAggregate_no_proj (rel : Entity) :
    "No IfcProject found" ∉ (checkAggregate rel emptyFindings).errors := by
  rw [checkAggregate_errors rel emptyFindings]
  intro hMem
  have hE : emptyFindings.errors = ([] : List String) := rfl
  rw [hE, List.nil_append] at hMem
  rcases List.mem_append.mp hMem with h | h
  · split at h
    · exact absurd h (by decide)
    · exact absurd h (by decide)
  · split at h
    · exact absurd h (by decide)
    · obtain ⟨obj, hobj, hx⟩ := List.mem_flatMap.mp h
      rw [relObj_errors] at hx
      split at hx
      · exact absurd hx (by decide)
      · exact absurd hx (by decide)

theorem checkContainment_no_proj (rel : Entity) :
    "No IfcProject found" ∉ (checkContainment rel emptyFindings).errors := by
  rw [checkContainment_errors rel emptyFindings]
  intro hMem
  have hMem2 := hMem
  simp only [emptyFindings, List.nil_append] at hMem2
  split at hMem2
  · exact absurd hMem2 (by decide)
  · exact absurd hMem2 (by decide)

theorem relationships_no_proj (m : Model) :
    "No IfcProject found" ∉ (validate_relationships m emptyFindings).errors := by
  rw [validate_relationships_eq]
  intro hMem
  have hMem2 : "No IfcProject found" ∈
      ((m.byType "IfcRelAggregates").flatMap
        (fun rel => (checkAggregate rel emptyFindings).errors) ++
       (m.byType "IfcRelContainedInSpatialStructure").flatMap
        (fun rel => (checkContainment rel emptyFindings).errors)) := by
    simpa [emptyFindings, List.append_assoc] using hMem
  rcases List.mem_append.mp hMem2 with h | h
  · obtain ⟨rel, hr, hx⟩ := List.mem_flatMap.mp h
    exact checkAggregate_no_proj rel hx
  · obtain ⟨rel, hr, hx⟩ := List.mem_flatMap.mp h
    exact checkContainment_no_proj rel hx

theorem spatialBody_errors (m : Model) (project : Entity) (f : Findings) :
    (spatialBody m project f).errors = f.errors ++
      ((if optListFalsy project.repContexts then
          ["IfcProject.RepresentationContexts is null (must be entity list)"] else []) ++
       (if (m.byType "IfcSite").isEmpty then ["No IfcSite found (required)"] else []) ++
       (if (m.byType "IfcBuilding").isEmpty then ["No IfcBuilding found (required)"] else []) ++
       (if (m.byType "IfcBuildingStorey").isEmpty then
          ["No IfcBuildingStorey found (CRITICAL - required for valid hierarchy)"] else [])) := by
  simp only [spatialBody]
  split_ifs <;> simp [Findings.addError, Findings.addInfo, List.append_assoc]

/-! The claims. -/

/-- Claim C1: for every completed validation run, the boolean returned by
`validate_all` is true iff the accumulated error list is empty (warnings
play no part in it), and the process exit status chosen by `main` is 0
when the error list is empty and 1 when it is not. -/
theorem c1_result_boolean_and_exit (m : Model) (path : String) :
    ((validate_all m).2 = true ↔ (validate_all m).1.errors = []) ∧
    (main_run path true (Except.ok m)).exitCode =
      (if (validate_all m).1.errors = [] then 0 else 1) := by
  constructor
  · rw [validate_all_snd]
    exact List.isEmpty_iff
  · show (if (validate_all m).2 then 0 else 1) = _
    rw [validate_all_snd]
    by_cases h : (validate_all m).1.errors = []
    · simp [h]
    · simp [h, List.isEmpty_iff]

/-- Claim C2: the schema check appends exactly one finding — an Info
holding the schema string when the declared schema equals the literal
`IFC4`, otherwise an Error naming both the required string `IFC4` and the
found schema string — and it never touches the warning list. -/
theorem c2_schema_check (m : Model) (f : Findings) :
    (validate_schema m f).warnings = f.warnings ∧
    (if m.schema = "IFC4" then
      validate_schema m f = ⟨f.errors, f.warnings, f.info ++ ["✓ Schema: " ++ m.schema]⟩
    else
      validate_schema m f =
        ⟨f.errors ++ ["Schema must be IFC4, found: " ++ m.schema], f.warnings, f.info⟩) := by
  unfold validate_schema
  by_cases h : m.schema = "IFC4"
  · simp [h, Findings.addInfo]
  · simp [h, Findings.addError]

/-- Claim C3: for every model whose first project has a non-null unit
context, the units check is decided by the first unit whose unit-type is
`LENGTHUNIT` (a `List.find?` scan): no such unit gives exactly one Error;
a `MILLI` prefix gives exactly one Info and no warnings or errors; any
other prefix gives exactly one Warning containing that prefix followed by
`METRE`, an absent prefix printing as `NoneMETRE`. -/
theorem c3_units_check (m : Model) (f : Findings) (project : Entity) (rest : List Entity)
    (uc : UnitContext) (hp : m.byType "IfcProject" = project :: rest)
    (hu : project.unitsInContext = some uc) :
    validate_units m f =
      match uc.units.find? (fun u => u.unitType == some "LENGTHUNIT") with
      | none => ⟨f.errors ++ ["No LENGTHUNIT found in UnitsInContext"], f.warnings, f.info⟩
      | some lengthUnit =>
        if lengthUnit.unitPrefix == some "MILLI" then
          ⟨f.errors, f.warnings, f.info ++ ["✓ Units: MILLIMETRE (correct)"]⟩
        else
          ⟨f.errors, f.warnings ++ ["Units: " ++ lengthUnit.unitPrefix.getD "None" ++
            "METRE (spec requires MILLIMETRE)"], f.info⟩ := by
  rcases hF : uc.units.find? (fun u => u.unitType == some "LENGTHUNIT") with _ | lengthUnit
  · simp [validate_units, hp, hu, hF, Findings.addError]
  · by_cases hMil : lengthUnit.unitPrefix = some "MILLI"
    · simp [validate_units, hp, hu, hF, hMil, Findings.addInfo]
    · simp [validate_units, hp, hu, hF, hMil, Findings.addWarning]

/-- Claim C3 witness: a concrete model whose project declares a
`MILLI`-prefixed length unit; the check yields exactly the single Info. -/
theorem c3_units_check_witness :
    mC3.byType "IfcProject" = [pC3] ∧ pC3.unitsInContext = some ucC3 ∧
    validate_units mC3 emptyFindings = ⟨[], [], ["✓ Units: MILLIMETRE (correct)"]⟩ := by
  refine ⟨by decide, rfl, ?_⟩
  have h := c3_units_check mC3 emptyFindings pC3 [] ucC3 (by decide) rfl
  exact h.trans (by decide)

/-- Claim C4 counterexample: the claim says a non-entity raw placement
value always yields an Error mentioning "possibly a float".  A raw `0.0`
is Python-falsy, so `if not product.ObjectPlacement` catches it first and
the code emits the null-placement Error instead; and even for a truthy raw
value the code's wording is "possibly float", which does not contain the
quoted phrase "possibly a float". -/
theorem c4_counterexample :
    pC4zero.objectPlacement = IfcVal.raw 0 ∧
    pC4one.objectPlacement = IfcVal.raw 1 ∧
    mC4.byType "IfcProduct" = [pC4zero, pC4one] ∧
    (validate_no_float_placements mC4 emptyFindings).errors =
      ["P: ObjectPlacement is null (must be IfcLocalPlacement)",
       "Q: ObjectPlacement is not an IFC entity (possibly float)"] ∧
    strHas "P: ObjectPlacement is null (must be IfcLocalPlacement)" "possibly a float" = false ∧
    strHas "Q: ObjectPlacement is not an IFC entity (possibly float)" "possibly a float" = false :=
  ⟨rfl, rfl, by decide, by decide, by decide, by decide⟩

/-- Claim C4 (amended): over every Product entity (spatial-structure
entities included) the placement loop appends, per product, exactly one
null-placement Error when the placement is Python-falsy (null, or a raw
value equal to zero such as `0.0`); exactly one Error worded
"possibly float" when the placement is a truthy non-entity raw value;
exactly one Warning naming the actual type when the placement is a typed
entity other than `IfcLocalPlacement`; nothing otherwise.  The loop never
stops early (every product contributes its findings to the concatenation)
and is followed by exactly one Info with the checked-product count. -/
theorem c4_placement_check (m : Model) (f : Findings) (p : Entity) (v : Int) (ty : String) :
    validate_no_float_placements m f =
      ⟨f.errors ++ (m.byType "IfcProduct").flatMap
          (fun q => (checkPlacement q emptyFindings).errors),
       f.warnings ++ (m.byType "IfcProduct").flatMap
          (fun q => (checkPlacement q emptyFindings).warnings),
       f.info ++ (m.byType "IfcProduct").flatMap
          (fun q => (checkPlacement q emptyFindings).info) ++
        ["✓ Checked " ++ toString (m.byType "IfcProduct").length ++
          " products for valid placements"]⟩ ∧
    checkPlacement p emptyFindings =
      (if !pyTruthy p.objectPlacement then
        ⟨[nameStr p ++ ": ObjectPlacement is null (must be IfcLocalPlacement)"], [], []⟩
      else if !hasIsA p.objectPlacement then
        ⟨[nameStr p ++ ": ObjectPlacement is not an IFC entity (possibly float)"], [], []⟩
      else if !valIsA p.objectPlacement "IfcLocalPlacement" then
        ⟨[], [nameStr p ++ ": ObjectPlacement is " ++ valType p.objectPlacement ++
          " (expected IfcLocalPlacement)"], []⟩
      else ⟨[], [], []⟩) ∧
    pyTruthy (IfcVal.raw v) = (v != 0) ∧
    hasIsA (IfcVal.raw v) = false ∧
    pyTruthy IfcVal.null = false ∧
    valIsA (IfcVal.ent ty) "IfcLocalPlacement" = (ty == "IfcLocalPlacement") := by
  refine ⟨validate_no_float_placements_eq m f, ?_, rfl, rfl, rfl, ?_⟩
  · unfold checkPlacement
    split_ifs <;> simp [Findings.addError, Findings.addWarning, emptyFindings]
  · have hq : ("IfcLocalPlacement" == "IfcProduct") = false := by decide
    simp [valIsA, isA, hq]

/-- Claim C5: the property-set check never appends an Error for any model;
per furnishing element it appends exactly one finding — a Warning when the
set `Pset_BoscotekCabinet` is absent, a Warning listing precisely the
missing names among `BoscotekCode`, `Family`, `Manufacturer` (comma-joined
in that fixed order) when the set is present but incomplete, an Info when
all three are present. -/
theorem c5_pset_check (m : Model) (f : Findings) (p : Entity) :
    (validate_property_sets m f).errors = f.errors ∧
    validate_property_sets m f =
      ⟨f.errors,
       f.warnings ++ (m.byType "IfcFurnishingElement").flatMap
          (fun q => (checkPset q emptyFindings).warnings),
       f.info ++ (m.byType "IfcFurnishingElement").flatMap
          (fun q => (checkPset q emptyFindings).info)⟩ ∧
    requiredProps = ["BoscotekCode", "Family", "Manufacturer"] ∧
    checkPset p emptyFindings =
      (match p.psets.lookup "Pset_BoscotekCabinet" with
      | none => ⟨[], [nameStr p ++ ": Missing Pset_BoscotekCabinet property set"], []⟩
      | some pset =>
        if !(requiredProps.filter (fun prop => !pset.contains prop)).isEmpty then
          ⟨[], [nameStr p ++ ": Missing properties: " ++ String.intercalate ", "
            (requiredProps.filter (fun prop => !pset.contains prop))], []⟩
        else
          ⟨[], [], ["✓ " ++ nameStr p ++ ": Has complete Pset_BoscotekCabinet"]⟩) ∧
    (checkPset p emptyFindings).warnings.length + (checkPset p emptyFindings).info.length = 1 := by
  have hChar : checkPset p emptyFindings =
      (match p.psets.lookup "Pset_BoscotekCabinet" with
      | none => ⟨[], [nameStr p ++ ": Missing Pset_BoscotekCabinet property set"], []⟩
      | some pset =>
        if !(requiredProps.filter (fun prop => !pset.contains prop)).isEmpty then
          ⟨[], [nameStr p ++ ": Missing properties: " ++ String.intercalate ", "
            (requiredProps.filter (fun prop => !pset.contains prop))], []⟩
        else
          ⟨[], [], ["✓ " ++ nameStr p ++ ": Has complete Pset_BoscotekCabinet"]⟩) := by
    rcases hL : p.psets.lookup "Pset_BoscotekCabinet" with _ | pset
    · simp [checkPset, hL, Findings.addWarning, emptyFindings]
    · simp only [checkPset, hL]
      split_ifs <;> simp [Findings.addWarning, Findings.addInfo, emptyFindings]
  refine ⟨validate_property_sets_errors m f, ?_, rfl, hChar, ?_⟩
  · rw [validate_property_sets_eq]
    simp [checkPset_errors_nil, flatMap_nil_fun]
  · rw [hChar]
    rcases hL : p.psets.lookup "Pset_BoscotekCabinet" with _ | pset
    · simp [hL]
    · simp only [hL]
      split_ifs <;> simp

/-- Claim C6 counterexample: a file with no site, no building and no
storey need not produce the three per-type Errors — when it also has no
project, both checks that would look at the hierarchy return right after
"No IfcProject found", so the run's error list is just that message twice
and names none of the three missing types. -/
theorem c6_counterexample :
    mC6cex.byType "IfcSite" = [] ∧ mC6cex.byType "IfcBuilding" = [] ∧
    mC6cex.byType "IfcBuildingStorey" = [] ∧
    (validate_all mC6cex).1.errors = ["No IfcProject found", "No IfcProject found"] ∧
    "No IfcSite found (required)" ∉ (validate_all mC6cex).1.errors ∧
    "No IfcBuilding found (required)" ∉ (validate_all mC6cex).1.errors ∧
    "No IfcBuildingStorey found (CRITICAL - required for valid hierarchy)" ∉
      (validate_all mC6cex).1.errors :=
  ⟨rfl, rfl, rfl, by decide, by decide, by decide, by decide⟩

/-- Claim C6 (amended): for every model that contains at least one
project but no site, no building and no storey, the run's error list
contains the three pairwise-distinct Errors naming each missing type, the
storey message is flagged CRITICAL, and the process exits with status 1. -/
theorem c6_missing_spatial (path : String) (m : Model) (project : Entity)
    (rest : List Entity) (hp : m.byType "IfcProject" = project :: rest)
    (hs : m.byType "IfcSite" = []) (hb : m.byType "IfcBuilding" = [])
    (hy : m.byType "IfcBuildingStorey" = []) :
    "No IfcSite found (required)" ∈ (validate_all m).1.errors ∧
    "No IfcBuilding found (required)" ∈ (validate_all m).1.errors ∧
    "No IfcBuildingStorey found (CRITICAL - required for valid hierarchy)" ∈
      (validate_all m).1.errors ∧
    strHas "No IfcBuildingStorey found (CRITICAL - required for valid hierarchy)"
      "CRITICAL" = true ∧
    ("No IfcSite found (required)" ≠ "No IfcBuilding found (required)" ∧
     "No IfcSite found (required)" ≠
       "No IfcBuildingStorey found (CRITICAL - required for valid hierarchy)" ∧
     "No IfcBuilding found (required)" ≠
       "No IfcBuildingStorey found (CRITICAL - required for valid hierarchy)") ∧
    (main_run path true (Except.ok m)).exitCode = 1 := by
  have hBody : validate_spatial_hierarchy m emptyFindings =
      spatialBody m project emptyFindings := by
    simp [validate_spatial_hierarchy, hp]
  have hSpatErr : (validate_spatial_hierarchy m emptyFindings).errors =
      (if optListFalsy project.repContexts then
        ["IfcProject.RepresentationContexts is null (must be entity list)"] else []) ++
      ["No IfcSite found (required)", "No IfcBuilding found (required)",
       "No IfcBuildingStorey found (CRITICAL - required for valid hierarchy)"] := by
    rw [hBody, spatialBody_errors, hs, hb, hy]
    have hE : emptyFindings.errors = ([] : List String) := rfl
    rw [hE]
    simp
  have hSpat : ∀ s : String,
      s ∈ (validate_spatial_hierarchy m emptyFindings).errors →
      s ∈ (validate_all m).1.errors := by
    intro s hsMem
    rw [validate_all_errors]
    exact List.mem_append_left _ (List.mem_append_left _ (List.mem_append_left _
      (List.mem_append_left _ (List.mem_append_right _ hsMem))))
  have hmemS : "No IfcSite found (required)" ∈ (validate_all m).1.errors := by
    refine hSpat _ ?_
    rw [hSpatErr]
    simp
  have hmemB : "No IfcBuilding found (required)" ∈ (validate_all m).1.errors := by
    refine hSpat _ ?_
    rw [hSpatErr]
    simp
  have hmemY : "No IfcBuildingStorey found (CRITICAL - required for valid hierarchy)" ∈
      (validate_all m).1.errors := by
    refine hSpat _ ?_
    rw [hSpatErr]
    simp
  have hne : (validate_all m).1.errors ≠ [] := List.ne_nil_of_mem hmemS
  have hE2 : (validate_all m).1.errors.isEmpty = false := by
    rcases hEE : (validate_all m).1.errors with _ | ⟨a, t⟩
    · exact absurd hEE hne
    · rfl
  refine ⟨hmemS, hmemB, hmemY, by decide, ⟨by decide, by decide, by decide⟩, ?_⟩
  show (if (validate_all m).2 then 0 else 1) = 1
  rw [validate_all_snd, hE2]
  rfl

/-- Claim C6 witness: a concrete model holding one project and nothing
else, run end to end. -/
theorem c6_missing_spatial_witness :
    (mC6w.byType "IfcProject" = [pC6proj] ∧ mC6w.byType "IfcSite" = [] ∧
     mC6w.byType "IfcBuilding" = [] ∧ mC6w.byType "IfcBuildingStorey" = []) ∧
    ("No IfcSite found (required)" ∈ (validate_all mC6w).1.errors ∧
     "No IfcBuilding found (required)" ∈ (validate_all mC6w).1.errors ∧
     "No IfcBuildingStorey found (CRITICAL - required for valid hierarchy)" ∈
       (validate_all mC6w).1.errors ∧
     strHas "No IfcBuildingStorey found (CRITICAL - required for valid hierarchy)"
       "CRITICAL" = true ∧
     ("No IfcSite found (required)" ≠ "No IfcBuilding found (required)" ∧
      "No IfcSite found (required)" ≠
        "No IfcBuildingStorey found (CRITICAL - required for valid hierarchy)" ∧
      "No IfcBuilding found (required)" ≠
        "No IfcBuildingStorey found (CRITICAL - required for valid hierarchy)") ∧
     (main_run "boscotek.ifc" true (Except.ok mC6w)).exitCode = 1) :=
  ⟨⟨by decide, by decide, by decide, by decide⟩,
   c6_missing_spatial "boscotek.ifc" mC6w pC6proj [] (by decide) (by decide) (by decide)
     (by decide)⟩

/-- Claim C7: an open failure (the provider raising, or the path check
failing) propagates from Validator construction to the entry point, which
prints an `ERROR:` line wrapping the provider message and exits 1, and no
findings report is produced for that run. -/
theorem c7_open_failure (path e : String) :
    IFCValidator_init (Except.error e) =
      Except.error ("Failed to open IFC file: " ++ e) ∧
    main_run path true (Except.error e) =
      ⟨1, none, some ("ERROR: " ++ ("Failed to open IFC file: " ++ e))⟩ ∧
    main_run path false (Except.error e) =
      ⟨1, none, some ("ERROR: File not found: " ++ path)⟩ :=
  ⟨rfl, rfl, rfl⟩

/-- Claim C8: the validator is deterministic — two runs over the same
parsed entity graph produce identical error, warning and info sequences
and the same exit code (the checks read only the model; nothing else
feeds them). -/
theorem c8_deterministic (m1 m2 : Model) (h : m1 = m2) :
    (validate_all m1).1.errors = (validate_all m2).1.errors ∧
    (validate_all m1).1.warnings = (validate_all m2).1.warnings ∧
    (validate_all m1).1.info = (validate_all m2).1.info ∧
    (main_run "run.ifc" true (Except.ok m1)).exitCode =
      (main_run "run.ifc" true (Except.ok m2)).exitCode := by
  subst h
  exact ⟨rfl, rfl, rfl, rfl⟩

/-- Claim C8 witness: two runs over one concrete model. -/
theorem c8_deterministic_witness :
    mC8 = mC8 ∧
    ((validate_all mC8).1.errors = (validate_all mC8).1.errors ∧
     (validate_all mC8).1.warnings = (validate_all mC8).1.warnings ∧
     (validate_all mC8).1.info = (validate_all mC8).1.info ∧
     (main_run "run.ifc" true (Except.ok mC8)).exitCode =
       (main_run "run.ifc" true (Except.ok mC8)).exitCode) :=
  ⟨rfl, c8_deterministic mC8 mC8 rfl⟩

/-- Claim C9: every one of the seven check routines only appends — its
result on any prior finding state is that state with the check's own
findings concatenated on the right, severity by severity, so the prior
error, warning and info sequences are prefixes of the new ones and no
finding is removed, reordered, merged or deduplicated. -/
theorem c9_append_only (m : Model) (f : Findings) :
    validate_schema m f = f.app (validate_schema m emptyFindings) ∧
    validate_units m f = f.app (validate_units m emptyFindings) ∧
    validate_spatial_hierarchy m f = f.app (validate_spatial_hierarchy m emptyFindings) ∧
    validate_no_float_placements m f = f.app (validate_no_float_placements m emptyFindings) ∧
    validate_products m f = f.app (validate_products m emptyFindings) ∧
    validate_property_sets m f = f.app (validate_property_sets m emptyFindings) ∧
    validate_relationships m f = f.app (validate_relationships m emptyFindings) :=
  ⟨validate_schema_app m f, validate_units_app m f, validate_spatial_hierarchy_app m f,
   validate_no_float_placements_app m f, validate_products_app m f,
   validate_property_sets_app m f, validate_relationships_app m f⟩

/-- Claim C10: on a model with no project, the units check and the
spatial-hierarchy check each append exactly the single error
"No IfcProject found" and nothing else (returning before their remaining
sub-checks), and a full run's error list contains that text exactly
twice. -/
theorem c10_no_project (m : Model) (f : Findings) (h : m.byType "IfcProject" = []) :
    validate_units m f = ⟨f.errors ++ ["No IfcProject found"], f.warnings, f.info⟩ ∧
    validate_spatial_hierarchy m f =
      ⟨f.errors ++ ["No IfcProject found"], f.warnings, f.info⟩ ∧
    (validate_all m).1.errors.count "No IfcProject found" = 2 := by
  refine ⟨validate_units_no_proj_eq m f h, validate_spatial_no_proj_eq m f h, ?_⟩
  have h1 : (validate_units m emptyFindings).errors = ["No IfcProject found"] := by
    rw [validate_units_no_proj_eq m emptyFindings h]
    rfl
  have h2 : (validate_spatial_hierarchy m emptyFindings).errors = ["No IfcProject found"] := by
    rw [validate_spatial_no_proj_eq m emptyFindings h]
    rfl
  have c1 : ((validate_schema m emptyFindings).errors).count "No IfcProject found" = 0 :=
    List.count_eq_zero.mpr (validate_schema_no_proj m)
  have c4 : ((validate_no_float_placements m emptyFindings).errors).count
      "No IfcProject found" = 0 :=
    List.count_eq_zero.mpr (placements_no_proj m)
  have c5 : ((validate_products m emptyFindings).errors).count "No IfcProject found" = 0 := by
    rw [validate_products_errors]
    rfl
  have c6 : ((validate_property_sets m emptyFindings).errors).count
      "No IfcProject found" = 0 := by
    rw [validate_property_sets_errors]
    rfl
  have c7 : ((validate_relationships m emptyFindings).errors).count "No IfcProject found" = 0 :=
    List.count_eq_zero.mpr (relationships_no_proj m)
  rw [validate_all_errors, h1, h2]
  simp only [List.count_append, c1, c4, c5, c6, c7]
  decide

/-- Claim C10 witness: a concrete model with one furnishing element and no
project. -/
theorem c10_no_project_witness :
    mC10.byType "IfcProject" = [] ∧
    (validate_units mC10 emptyFindings =
      ⟨emptyFindings.errors ++ ["No IfcProject found"], emptyFindings.warnings,
        emptyFindings.info⟩ ∧
     validate_spatial_hierarchy mC10 emptyFindings =
      ⟨emptyFindings.errors ++ ["No IfcProject found"], emptyFindings.warnings,
        emptyFindings.info⟩ ∧
     (validate_all mC10).1.errors.count "No IfcProject found" = 2) :=
  ⟨by decide, c10_no_project mC10 emptyFindings (by decide)⟩
